import Mathlib

/-!
Shallow embedding of the EdgeLink AI backend (FastAPI + RAG pipeline).

Modelling conventions:
* Python truthiness checks `not s.strip()` are modelled by `isBlank s`
  (every character is whitespace — exactly when the stripped string is
  empty); the one real use of a stripped value, `.strip()` on the answer,
  is `pyStrip`, which drops whitespace from both ends.
* Python exceptions become the `PyExc` inductive returned through `Except`
  (`ValueError`, `RuntimeError`, anything else).
* A Python `Dict[str, str]` is modelled by its key-lookup function
  `String → Option String`; `{**a, **b}` and `a.update(b)` become
  `dictMerge`, which lets keys of `b` override keys of `a`.
* The external collaborators (sentence-transformers embedder, ChromaDB
  nearest-neighbour query, Anthropic messages API) are oracles passed as
  function parameters; the pipeline code under verification is everything
  the Python file does around those calls.
* Stateful collection operations are state-passing: they return the result
  paired with the new store, so "store unchanged" is provable equality.
-/

namespace EdgeLink

/-- Python exceptions that flow through the service: `ValueError`,
`RuntimeError`, and any other exception class identified by its name. -/
inductive PyExc where
  | valueError (msg : String)
  | runtimeError (msg : String)
  | otherExc (name : String)
deriving DecidableEq

/-- Whether an exception is a `ValueError` (the class the endpoints catch
specially). -/
def PyExc.isValueError : PyExc → Bool
  | .valueError _ => true
  | _ => false

/-- Python `not s.strip()`: the string is empty or whitespace-only. -/
def isBlank (s : String) : Bool := s.data.all Char.isWhitespace

/-- Python `s.strip()`: drop whitespace from both ends of the string. -/
def pyStrip (s : String) : String :=
  ⟨((s.data.dropWhile Char.isWhitespace).reverse.dropWhile
      Char.isWhitespace).reverse⟩

/-- A string-to-string metadata mapping, modelled by its key lookup. -/
abbrev Dict := String → Option String

/-- The empty metadata mapping `{}`. -/
def emptyDict : Dict := fun _ => none

/-- Python dict extension `{**d, k: v}`: key `k` is (re)bound to `v`. -/
def dictSet (d : Dict) (k v : String) : Dict :=
  fun q => if q = k then some v else d q

/-- Python `a.update(b)` (equivalently `{**a, **b}`): keys present in `b`
override keys of `a`. -/
def dictMerge (a b : Dict) : Dict :=
  fun q =>
    match b q with
    | some v => some v
    | none => a q

/-- Embedding vectors are opaque to the pipeline; a list of integers is
enough structure for the oracle interface. -/
abbrev Embedding := List Int

/-- One record of the ChromaDB collection: id, document text, metadata and
stored embedding. -/
structure StoredDoc where
  id : String
  text : String
  metadata : Dict
  embedding : Embedding

/-- The persistent collection, as the list of its records. -/
abbrev Store := List StoredDoc

/-- ASCII single-quote character as a string, used in error messages. -/
def sq : String := String.singleton (Char.ofNat 39)

/-- The message of the `ValueError` raised for an unknown document id. -/
def notFoundMsg (docId : String) : String :=
  "Document with id " ++ sq ++ docId ++ sq ++ " does not exist."

/-- `collection.get(ids=[doc_id])`: the stored records carrying this id. -/
def storeGet (store : Store) (docId : String) : List StoredDoc :=
  store.filter (fun d => d.id == docId)

/-- `RagPipeline.add_document`: reject whitespace-only text, otherwise store
the text with metadata extended by `doc_id ↦` the generated id (the id is
generated by `uuid.uuid4()`, an external randomness source passed here as
`freshId`), and the embedding computed by the embedder oracle. -/
def addDocument (embed : String → Embedding) (freshId : String)
    (store : Store) (text : String) (metadata : Option Dict) :
    Except PyExc String × Store :=
  if isBlank text then
    (.error (.valueError "Document text cannot be empty."), store)
  else
    let docId := freshId
    let md := metadata.getD emptyDict
    let embedding := embed text
    (.ok docId, store ++ [⟨docId, text, dictSet md "doc_id" docId, embedding⟩])

/-- `RagPipeline.delete_document`: `NotFound`-style `ValueError` when the id
is absent, otherwise remove the record. -/
def deleteDocument (store : Store) (docId : String) :
    Except PyExc Unit × Store :=
  match storeGet store docId with
  | [] => (.error (.valueError (notFoundMsg docId)), store)
  | _ :: _ => (.ok (), store.filter (fun d => d.id != docId))

/-- `RagPipeline.update_document`: reject whitespace-only text; `NotFound`
for an absent id; otherwise re-store the new text, a recomputed embedding,
and the merged metadata `{**current_metadata, "doc_id": doc_id}` updated by
the provided metadata (Python `if metadata: merged.update(metadata)`; an
absent map is skipped, and updating with an empty map is a no-op either way). -/
def updateDocument (embed : String → Embedding) (store : Store)
    (docId : String) (text : String) (metadata : Option Dict) :
    Except PyExc Unit × Store :=
  if isBlank text then
    (.error (.valueError "Updated document text cannot be empty."), store)
  else
    match storeGet store docId with
    | [] => (.error (.valueError (notFoundMsg docId)), store)
    | found :: _ =>
      let currentMetadata := found.metadata
      let merged := dictSet currentMetadata "doc_id" docId
      let mergedMetadata :=
        match metadata with
        | some m => dictMerge merged m
        | none => merged
      let embedding := embed text
      (.ok (),
        store.map (fun d =>
          if d.id == docId then
            { d with text := text, metadata := mergedMetadata,
                     embedding := embedding }
          else d))

/-- The aligned lists returned by `collection.query` for one query embedding:
documents, per-document metadata (possibly `None`), and ids. -/
structure QueryResult where
  documents : List String
  metadatas : List (Option Dict)
  ids : List String

/-- A citation dict `{"source": ..., "text": ...}`. -/
structure Citation where
  source : String
  text : String
deriving DecidableEq

/-- One block of `response.content` from the messages API: either a block
carrying a `text` attribute, or any other block kind. -/
inductive ContentBlock where
  | textBlock (text : String)
  | other
deriving DecidableEq

/-- The generation response: its list of content blocks. -/
structure LlmResponse where
  content : List ContentBlock
deriving DecidableEq

/-- Python `zip` over three lists: truncates at the shortest. -/
def zip3 {α β γ : Type} : List α → List β → List γ → List (α × β × γ)
  | a :: as, b :: bs, c :: cs => (a, b, c) :: zip3 as bs cs
  | _, _, _ => []

/-- `metadata.get("source") or doc_id`: the metadata source value unless it
is absent or empty (falsy), in which case the document id. -/
def citationSource (md : Dict) (docId : String) : String :=
  match md "source" with
  | some s => if s = "" then docId else s
  | none => docId

/-- The citation-building loop of `generate_answer`: one citation per
retrieved record, in retrieval order (`metadata = metadata or {}`). -/
def buildCitations (metadatas : List (Option Dict)) (ids : List String)
    (documents : List String) : List Citation :=
  (zip3 metadatas ids documents).map
    (fun t => ⟨citationSource (t.1.getD emptyDict) t.2.1, t.2.2⟩)

/-- The context-block comprehension of `generate_answer`. -/
def buildContextBlocks (citations : List Citation) : List String :=
  citations.enum.map
    (fun p => "[" ++ toString (p.1 + 1) ++ "] Source: " ++ p.2.source
      ++ "\n" ++ p.2.text)

/-- The fixed instruction prefix of the generation prompt. -/
def promptInstruction : String :=
  "You are an AI assistant that answers questions using the provided "
  ++ "context. Only rely on the context when possible and include short "
  ++ "citations in the format [source]. If the context is insufficient, "
  ++ "state that you do not know.\n\n"

/-- The assembled generation prompt for a context and a question. -/
def assemblePrompt (context question : String) : String :=
  promptInstruction ++ "Context:\n" ++ context ++ "\n\nQuestion: " ++ question
    ++ "\n\nAnswer:"

/-- The `text` attribute of a content block, when it has one. -/
def blockText : ContentBlock → Option String
  | .textBlock t => some t
  | .other => none

/-- Joining all text fragments of the response and trimming whitespace. -/
def extractAnswer (response : LlmResponse) : String :=
  pyStrip (String.join (response.content.filterMap blockText))

/-- `RagPipeline._ensure_llm`: a `RuntimeError` when the `ANTHROPIC_API_KEY`
environment value is unset or empty (falsy); otherwise the client exists. -/
def ensureLlm (anthropicKey : Option String) : Except PyExc Unit :=
  match anthropicKey with
  | none =>
    .error (.runtimeError "ANTHROPIC_API_KEY environment variable is not set.")
  | some s =>
    if s = "" then
      .error
        (.runtimeError "ANTHROPIC_API_KEY environment variable is not set.")
    else .ok ()

/-- The `n_results` argument of the collection query: `max(1, top_k)`. -/
def nResults (topK : Int) : Int := max 1 topK

/-- The fixed context placeholder used when retrieval returns nothing. -/
def noMatchPlaceholder : String := "No documents matched the query."

/-- `RagPipeline.generate_answer`: validate the question, embed it, query
the store oracle for `max(1, top_k)` results, build citations and context,
assemble the prompt, require the credential, call the generation oracle,
and return the trimmed concatenated answer with the citations. -/
def generateAnswer (embed : String → Embedding)
    (query : Embedding → Int → QueryResult)
    (anthropicKey : Option String)
    (llm : String → Except PyExc LlmResponse)
    (question : String) (topK : Int) :
    Except PyExc (String × List Citation) :=
  if isBlank question then
    .error (.valueError "Query cannot be empty.")
  else
    let queryEmbedding := embed question
    let results := query queryEmbedding (nResults topK)
    let documents := results.documents
    let metadatas := results.metadatas
    let ids := results.ids
    let pr :=
      if documents.isEmpty then
        ([noMatchPlaceholder], ([] : List Citation))
      else
        let citations := buildCitations metadatas ids documents
        (buildContextBlocks citations, citations)
    let context := String.intercalate "\n\n" pr.1
    let prompt := assemblePrompt context question
    match ensureLlm anthropicKey with
    | .error e => .error e
    | .ok _ =>
      match llm prompt with
      | .error e => .error e
      | .ok response => .ok (extractAnswer response, pr.2)

/-- An endpoint outcome: a successful JSON body, or an `HTTPException`
with a status code and detail message. -/
inductive HttpResult (α : Type) where
  | ok (body : α)
  | httpError (status : Nat) (detail : String)
deriving DecidableEq

/-- `AskRequest`: `query` and `top_k` (pydantic default 4; an explicit JSON
null arrives as `none`). -/
structure AskRequest where
  query : String
  topK : Option Int
deriving DecidableEq

/-- `AskResponse`: answer plus citation list. -/
structure AskResponse where
  answer : String
  citations : List Citation
deriving DecidableEq

/-- `req.top_k or 4`: `None` and the falsy `0` both become 4. -/
def effectiveTopK (req : AskRequest) : Int :=
  match req.topK with
  | none => 4
  | some k => if k = 0 then 4 else k

/-- `POST /ask`: empty-query guard, then the pipeline call; a `ValueError`
maps to 400, any other exception is downgraded to the fallback answer. -/
def askEndpoint (embed : String → Embedding)
    (query : Embedding → Int → QueryResult)
    (anthropicKey : Option String)
    (llm : String → Except PyExc LlmResponse)
    (req : AskRequest) : HttpResult AskResponse :=
  if isBlank req.query then
    .httpError 400 "Query cannot be empty"
  else
    match generateAnswer embed query anthropicKey llm req.query
        (effectiveTopK req) with
    | .ok (answer, citations) => .ok ⟨answer, citations⟩
    | .error (.valueError msg) => .httpError 400 msg
    | .error _ => .ok ⟨"Service busy — try again soon!", []⟩

/-- `DeleteDocRequest`: the id of the document to remove. -/
structure DeleteDocRequest where
  documentId : String
deriving DecidableEq

/-- `DeleteDocResponse`: echoed id and status string. -/
structure DeleteDocResponse where
  documentId : String
  status : String
deriving DecidableEq

/-- `DELETE /delete_doc`: empty-id guard (400), then the pipeline delete; a
`ValueError` maps to 404; an uncaught exception would surface as a 500. -/
def deleteDocumentEndpoint (store : Store) (req : DeleteDocRequest) :
    HttpResult DeleteDocResponse × Store :=
  if isBlank req.documentId then
    (.httpError 400 "Document ID cannot be empty", store)
  else
    match deleteDocument store req.documentId with
    | (.ok _, s) => (.ok ⟨req.documentId, "deleted"⟩, s)
    | (.error (.valueError msg), s) => (.httpError 404 msg, s)
    | (.error _, s) => (.httpError 500 "Internal Server Error", s)

/-- A concrete embedder oracle for witnesses. -/
def wEmbed : String → Embedding := fun _ => []

/-- A concrete store-query oracle returning no documents. -/
def wEmptyQuery : Embedding → Int → QueryResult := fun _ _ => ⟨[], [], []⟩

/-- A concrete generation oracle returning one text block. -/
def wLlmOk : String → Except PyExc LlmResponse :=
  fun _ => .ok ⟨[.textBlock " grounded answer "]⟩

/-- A concrete query oracle returning one document with a source field. -/
def wOneDocQuery : Embedding → Int → QueryResult :=
  fun _ _ => ⟨["docA text"], [some (dictSet emptyDict "source" "src1")], ["id-1"]⟩

/-- A concrete query oracle that is empty only when exactly one result is
requested. -/
def wQueryAtOne : Embedding → Int → QueryResult :=
  fun _ n => if n = 1 then ⟨[], [], []⟩ else ⟨["x"], [none], ["y"]⟩

/-- A concrete embedder for the update evaluation. -/
def c1Embed : String → Embedding := fun _ => []

/-- A one-document store whose record carries its own id in metadata. -/
def c1Store : Store :=
  [⟨"doc-1", "old text", dictSet emptyDict "doc_id" "doc-1", []⟩]

/-- A caller-supplied metadata map that itself contains a doc_id key. -/
def c1Meta : Dict := dictSet emptyDict "doc_id" "evil"

/-- Claim C1: the claim states that after `update_document` the stored
metadata doc_id still equals the document id even when the provided map
contains a doc_id key. The code applies `merged_metadata.update(metadata)`
after forcing `doc_id`, so the caller-supplied key wins: concretely,
updating doc-1 with metadata mapping doc_id to evil stores doc_id = evil. -/
theorem C1_doc_id_overridden :
    (updateDocument c1Embed c1Store "doc-1" "new text" (some c1Meta)).1 = .ok ()
    ∧ ((updateDocument c1Embed c1Store "doc-1" "new text" (some c1Meta)).2.map
        (fun d => d.metadata "doc_id")) = [some "evil"]
    ∧ "evil" ≠ "doc-1" :=
  ⟨rfl, rfl, by decide⟩

/-- Claim C5: a whitespace-only question makes `generate_answer` fail with
the invalid-input `ValueError` for every top_k and every embedder, store and
generation oracle (so before any external call), and the `/ask` endpoint
rejects an empty query with status 400. -/
theorem C5_empty_question_invalid (embed : String → Embedding)
    (query : Embedding → Int → QueryResult) (anthropicKey : Option String)
    (llm : String → Except PyExc LlmResponse) (question : String)
    (topK : Int) (req : AskRequest)
    (hq : isBlank question = true) (hreq : isBlank req.query = true) :
    generateAnswer embed query anthropicKey llm question topK =
      .error (.valueError "Query cannot be empty.")
    ∧ askEndpoint embed query anthropicKey llm req =
      .httpError 400 "Query cannot be empty" := by
  constructor
  · simp [generateAnswer, hq]
  · simp [askEndpoint, hreq]

/-- Witness for C5 at a whitespace question and an empty request query. -/
theorem C5_empty_question_invalid_witness :
    (isBlank "  " = true)
    ∧ generateAnswer wEmbed wEmptyQuery none wLlmOk "  " (-3) =
        .error (.valueError "Query cannot be empty.")
    ∧ askEndpoint wEmbed wEmptyQuery none wLlmOk ⟨"", none⟩ =
        .httpError 400 "Query cannot be empty" := by
  have h := C5_empty_question_invalid wEmbed wEmptyQuery none wLlmOk
    "  " (-3) ⟨"", none⟩ (by decide) (by decide)
  exact ⟨by decide, h.1, h.2⟩

/-- Claim C7: adding a document whose text is empty or whitespace-only fails
with the invalid-input `ValueError` and leaves the store unchanged, for
every metadata map, embedder, fresh id and store. -/
theorem C7_add_empty_text_rejected (embed : String → Embedding)
    (freshId : String) (store : Store) (text : String)
    (metadata : Option Dict) (h : isBlank text = true) :
    addDocument embed freshId store text metadata =
      (.error (.valueError "Document text cannot be empty."), store) := by
  simp [addDocument, h]

/-- Witness for C7 at a concrete whitespace-only text. -/
theorem C7_add_empty_text_rejected_witness :
    (isBlank "  " = true)
    ∧ addDocument wEmbed "id-1" [] "  " none =
        (.error (.valueError "Document text cannot be empty."), []) :=
  ⟨by decide, C7_add_empty_text_rejected wEmbed "id-1" [] "  " none (by decide)⟩

/-- Claim C8: deleting an absent id fails with the not-found `ValueError`,
updating an absent id with non-empty text fails the same way, and both
leave the store unchanged. -/
theorem C8_missing_id_not_found (embed : String → Embedding) (store : Store)
    (docId text : String) (metadata : Option Dict)
    (habs : storeGet store docId = []) (htext : isBlank text = false) :
    deleteDocument store docId =
      (.error (.valueError (notFoundMsg docId)), store)
    ∧ updateDocument embed store docId text metadata =
      (.error (.valueError (notFoundMsg docId)), store) := by
  constructor
  · simp [deleteDocument, habs]
  · simp [updateDocument, habs, htext]

/-- Witness for C8 at an empty store and a missing id. -/
theorem C8_missing_id_not_found_witness :
    (storeGet [] "missing" = [])
    ∧ (isBlank "hello" = false)
    ∧ deleteDocument [] "missing" =
        (.error (.valueError (notFoundMsg "missing")), [])
    ∧ updateDocument wEmbed [] "missing" "hello" none =
        (.error (.valueError (notFoundMsg "missing")), []) := by
  have h := C8_missing_id_not_found wEmbed [] "missing" "hello" none rfl
    (by decide)
  exact ⟨rfl, by decide, h.1, h.2⟩

/-- Claim C10: a delete request whose document_id is empty or
whitespace-only is rejected with status 400 and the empty-id detail, for
every store (so before the store is consulted), and the store is returned
unchanged. -/
theorem C10_delete_empty_id_rejected (store : Store)
    (req : DeleteDocRequest) (h : isBlank req.documentId = true) :
    deleteDocumentEndpoint store req =
      (.httpError 400 "Document ID cannot be empty", store) := by
  simp [deleteDocumentEndpoint, h]

/-- Witness for C10 at a whitespace-only document id. -/
theorem C10_delete_empty_id_rejected_witness :
    (isBlank " " = true)
    ∧ deleteDocumentEndpoint [] ⟨" "⟩ =
        (.httpError 400 "Document ID cannot be empty", []) :=
  ⟨by decide, C10_delete_empty_id_rejected [] ⟨" "⟩ (by decide)⟩

/-- Claim C2: for a non-empty question, when the pipeline fails with any
exception that is not a `ValueError` — the missing-credential `RuntimeError`
included — the `/ask` endpoint returns the fixed fallback answer with an
empty citation list instead of an error. -/
theorem C2_ask_fallback_on_non_value_error (embed : String → Embedding)
    (query : Embedding → Int → QueryResult) (anthropicKey : Option String)
    (llm : String → Except PyExc LlmResponse) (req : AskRequest) (e : PyExc)
    (hq : isBlank req.query = false)
    (herr : generateAnswer embed query anthropicKey llm req.query
      (effectiveTopK req) = .error e)
    (hnv : e.isValueError = false) :
    askEndpoint embed query anthropicKey llm req =
      .ok ⟨"Service busy — try again soon!", []⟩ := by
  cases e with
  | valueError m => simp [PyExc.isValueError] at hnv
  | runtimeError m => simp [askEndpoint, hq, herr]
  | otherExc n => simp [askEndpoint, hq, herr]

/-- Witness for C2: the credential is absent, so the pipeline fails with
the `RuntimeError` service-unavailable condition and the endpoint answers
with the fallback. -/
theorem C2_ask_fallback_on_non_value_error_witness :
    (isBlank "hi" = false)
    ∧ generateAnswer wEmbed wEmptyQuery none wLlmOk "hi"
        (effectiveTopK ⟨"hi", none⟩) =
      .error (.runtimeError
        "ANTHROPIC_API_KEY environment variable is not set.")
    ∧ (PyExc.runtimeError
        "ANTHROPIC_API_KEY environment variable is not set.").isValueError
        = false
    ∧ askEndpoint wEmbed wEmptyQuery none wLlmOk ⟨"hi", none⟩ =
        .ok ⟨"Service busy — try again soon!", []⟩ := by
  refine ⟨by decide, rfl, rfl, ?_⟩
  exact C2_ask_fallback_on_non_value_error wEmbed wEmptyQuery none wLlmOk
    ⟨"hi", none⟩
    (.runtimeError "ANTHROPIC_API_KEY environment variable is not set.")
    (by decide) rfl rfl

/-- Claim C3: for a non-empty question whose retrieval returns zero
documents, `generate_answer` uses the fixed placeholder as the whole
grounding context of the prompt and returns the generation output with an
empty citation sequence. -/
theorem C3_no_match_placeholder (embed : String → Embedding)
    (query : Embedding → Int → QueryResult) (anthropicKey : Option String)
    (llm : String → Except PyExc LlmResponse) (question : String)
    (topK : Int) (resp : LlmResponse)
    (hq : isBlank question = false)
    (hempty : (query (embed question) (nResults topK)).documents = [])
    (hkey : ensureLlm anthropicKey = .ok ())
    (hllm : llm (assemblePrompt noMatchPlaceholder question) = .ok resp) :
    generateAnswer embed query anthropicKey llm question topK =
      .ok (extractAnswer resp, []) := by
  have hctx : String.intercalate "\n\n" [noMatchPlaceholder]
      = noMatchPlaceholder := rfl
  simp [generateAnswer, hq, hempty, hctx, hkey, hllm]

/-- Witness for C3 at an oracle returning no documents. -/
theorem C3_no_match_placeholder_witness :
    ((wEmptyQuery (wEmbed "q") (nResults 4)).documents = [])
    ∧ generateAnswer wEmbed wEmptyQuery (some "k") wLlmOk "q" 4 =
        .ok (extractAnswer ⟨[.textBlock " grounded answer "]⟩, []) := by
  refine ⟨rfl, ?_⟩
  exact C3_no_match_placeholder wEmbed wEmptyQuery (some "k") wLlmOk "q" 4
    ⟨[.textBlock " grounded answer "]⟩ (by decide) rfl rfl rfl

/-- Claim C6: for every non-empty question and every integer top_k, the
store is queried with `max(1, top_k)` results — the answer depends on the
query oracle only through that request — and the requested count is at
least 1, equal to 1 whenever top_k is zero or negative. -/
theorem C6_topk_coerced_to_at_least_one (embed : String → Embedding)
    (query query2 : Embedding → Int → QueryResult)
    (anthropicKey : Option String)
    (llm : String → Except PyExc LlmResponse) (question : String)
    (topK : Int)
    (_hq : isBlank question = false)
    (hagree : query (embed question) (nResults topK)
      = query2 (embed question) (nResults topK)) :
    generateAnswer embed query anthropicKey llm question topK
      = generateAnswer embed query2 anthropicKey llm question topK
    ∧ 1 ≤ nResults topK
    ∧ (topK ≤ 0 → nResults topK = 1) := by
  refine ⟨?_, le_max_left _ _, fun h => max_eq_left (by omega)⟩
  simp only [generateAnswer, hagree]

/-- Witness for C6 at top_k = -5: the two oracles agree only at one
requested result, and the answers coincide. -/
theorem C6_topk_coerced_to_at_least_one_witness :
    (isBlank "q" = false)
    ∧ (wEmptyQuery (wEmbed "q") (nResults (-5))
        = wQueryAtOne (wEmbed "q") (nResults (-5)))
    ∧ generateAnswer wEmbed wEmptyQuery (some "k") wLlmOk "q" (-5)
        = generateAnswer wEmbed wQueryAtOne (some "k") wLlmOk "q" (-5)
    ∧ 1 ≤ nResults (-5)
    ∧ nResults (-5) = 1 := by
  have hone : nResults (-5) = 1 := by decide
  have hag : wEmptyQuery (wEmbed "q") (nResults (-5))
      = wQueryAtOne (wEmbed "q") (nResults (-5)) := by
    rw [hone]; rfl
  have h := C6_topk_coerced_to_at_least_one wEmbed wEmptyQuery wQueryAtOne
    (some "k") wLlmOk "q" (-5) (by decide) hag
  exact ⟨by decide, hag, h.1, h.2.1, h.2.2 (by decide)⟩

/-- Claim C9: adding non-empty text under a fresh id returns that id and
appends a record whose metadata is the provided map with doc_id rebound to
the generated id — so a caller-supplied doc_id key is overridden — and the
fresh id then looks up exactly the new record. -/
theorem C9_add_fresh_id_and_metadata (embed : String → Embedding)
    (freshId : String) (store : Store) (text : String)
    (metadata : Option Dict)
    (htext : isBlank text = false) (hfresh : storeGet store freshId = []) :
    addDocument embed freshId store text metadata =
      (.ok freshId,
        store ++ [⟨freshId, text,
          dictSet (metadata.getD emptyDict) "doc_id" freshId, embed text⟩])
    ∧ storeGet
        (store ++ [⟨freshId, text,
          dictSet (metadata.getD emptyDict) "doc_id" freshId, embed text⟩])
        freshId
      = [⟨freshId, text,
          dictSet (metadata.getD emptyDict) "doc_id" freshId, embed text⟩]
    ∧ dictSet (metadata.getD emptyDict) "doc_id" freshId "doc_id"
        = some freshId
    ∧ ∀ k, k ≠ "doc_id" →
        dictSet (metadata.getD emptyDict) "doc_id" freshId k
          = (metadata.getD emptyDict) k := by
  refine ⟨?_, ?_, ?_, ?_⟩
  · simp [addDocument, htext]
  · simp only [storeGet] at hfresh ⊢
    simp [List.filter_append, hfresh]
  · simp [dictSet]
  · intro k hk
    simp [dictSet, hk]

/-- Witness for C9: a fresh id on the empty store, with caller metadata that
tries to smuggle in its own doc_id value. -/
theorem C9_add_fresh_id_and_metadata_witness :
    (isBlank "hello" = false)
    ∧ (storeGet [] "id-1" = [])
    ∧ addDocument wEmbed "id-1" [] "hello" (some c1Meta) =
        (.ok "id-1",
          [⟨"id-1", "hello", dictSet c1Meta "doc_id" "id-1", wEmbed "hello"⟩])
    ∧ dictSet c1Meta "doc_id" "id-1" "doc_id" = some "id-1" := by
  have h := C9_add_fresh_id_and_metadata wEmbed "id-1" [] "hello"
    (some c1Meta) (by decide) rfl
  exact ⟨by decide, rfl, h.1, h.2.2.1⟩

/-- Indexing the three-way zip: an entry exists exactly when all three
lists have one, and it pairs the three entries at that position. -/
theorem zip3_getElem? {α β γ : Type} (as : List α) (bs : List β)
    (cs : List γ) (i : Nat) :
    (zip3 as bs cs)[i]? =
      (as[i]?).bind (fun a => (bs[i]?).bind (fun b =>
        (cs[i]?).map (fun c => (a, b, c)))) := by
  induction as generalizing bs cs i with
  | nil => cases bs <;> cases cs <;> simp [zip3]
  | cons a as ih =>
    cases bs with
    | nil => simp [zip3]
    | cons b bs =>
      cases cs with
      | nil => simp [zip3]
      | cons c cs =>
        cases i with
        | zero => simp [zip3]
        | succ n => simpa [zip3] using ih bs cs n

/-- Length of the three-way zip of equal-length lists. -/
theorem zip3_length {α β γ : Type} (as : List α) (bs : List β)
    (cs : List γ) (h1 : as.length = cs.length) (h2 : bs.length = cs.length) :
    (zip3 as bs cs).length = cs.length := by
  induction as generalizing bs cs with
  | nil => cases bs <;> cases cs <;> simp_all [zip3]
  | cons a as ih =>
    cases bs with
    | nil => cases cs <;> simp_all [zip3]
    | cons b bs =>
      cases cs with
      | nil => simp_all [zip3]
      | cons c cs =>
        simp only [zip3, List.length_cons] at h1 h2 ⊢
        rw [ih bs cs (by omega) (by omega)]

/-- Indexing the citation list built by `generate_answer`. -/
theorem buildCitations_getElem? (metadatas : List (Option Dict))
    (ids documents : List String) (i : Nat) :
    (buildCitations metadatas ids documents)[i]? =
      (metadatas[i]?).bind (fun m => (ids[i]?).bind (fun d =>
        (documents[i]?).map (fun t =>
          ⟨citationSource (m.getD emptyDict) d, t⟩))) := by
  simp only [buildCitations, List.getElem?_map, zip3_getElem?]
  cases metadatas[i]? <;> cases ids[i]? <;> cases documents[i]? <;> simp

/-- One citation per retrieved record when the query lists are aligned. -/
theorem buildCitations_length (metadatas : List (Option Dict))
    (ids documents : List String)
    (h1 : metadatas.length = documents.length)
    (h2 : ids.length = documents.length) :
    (buildCitations metadatas ids documents).length = documents.length := by
  simp [buildCitations, zip3_length metadatas ids documents h1 h2]

/-- Indexing the numbered context blocks. -/
theorem buildContextBlocks_getElem? (citations : List Citation) (i : Nat) :
    (buildContextBlocks citations)[i]? =
      (citations[i]?).map (fun c =>
        "[" ++ toString (i + 1) ++ "] Source: " ++ c.source ++ "\n"
          ++ c.text) := by
  simp only [buildContextBlocks, List.getElem?_map, List.getElem?_enum]
  cases citations[i]? <;> simp

/-- Claim C4: for a non-empty question retrieving n documents, the answer
call returns exactly the citations built from the aligned query lists —
citation i carries document i's text and its metadata source (or the id) —
the context blocks are the numbered Source blocks of those citations joined
by blank lines inside the fixed prompt around the question (the prompt at
which the generation oracle is invoked), and the answer is the trimmed
concatenation of the response's text fragments. -/
theorem C4_citation_alignment (embed : String → Embedding)
    (query : Embedding → Int → QueryResult) (anthropicKey : Option String)
    (llm : String → Except PyExc LlmResponse) (question : String)
    (topK : Int) (ds : List String) (ms : List (Option Dict))
    (ids : List String) (resp : LlmResponse)
    (hq : isBlank question = false)
    (hres : query (embed question) (nResults topK) = ⟨ds, ms, ids⟩)
    (hne : ds ≠ [])
    (hm : ms.length = ds.length) (hi : ids.length = ds.length)
    (hkey : ensureLlm anthropicKey = .ok ())
    (hllm : llm (assemblePrompt
        (String.intercalate "\n\n"
          (buildContextBlocks (buildCitations ms ids ds)))
        question) = .ok resp) :
    generateAnswer embed query anthropicKey llm question topK =
      .ok (extractAnswer resp, buildCitations ms ids ds)
    ∧ (buildCitations ms ids ds).length = ds.length
    ∧ (∀ i : Nat, ((buildCitations ms ids ds)[i]?).map Citation.text = ds[i]?)
    ∧ (∀ i : Nat, ((buildCitations ms ids ds)[i]?).map Citation.source =
        (ms[i]?).bind (fun m => (ids[i]?).map
          (fun d => citationSource (m.getD emptyDict) d)))
    ∧ (∀ i : Nat, (buildContextBlocks (buildCitations ms ids ds))[i]? =
        ((buildCitations ms ids ds)[i]?).map (fun c =>
          "[" ++ toString (i + 1) ++ "] Source: " ++ c.source ++ "\n"
            ++ c.text)) := by
  refine ⟨?_, buildCitations_length ms ids ds hm hi, ?_, ?_,
    fun i => buildContextBlocks_getElem? (buildCitations ms ids ds) i⟩
  · simp [generateAnswer, hq, hres, hne, hkey, hllm, List.isEmpty_iff]
  · intro i
    rw [buildCitations_getElem?]
    by_cases hlt : i < ds.length
    · cases hms : ms[i]? with
      | none => rw [List.getElem?_eq_none_iff] at hms; omega
      | some m =>
        cases hid : ids[i]? with
        | none => rw [List.getElem?_eq_none_iff] at hid; omega
        | some d =>
          cases hds : ds[i]? with
          | none => rw [List.getElem?_eq_none_iff] at hds; omega
          | some t => simp [hms, hid, hds]
    · have h1 : ms[i]? = none := List.getElem?_eq_none_iff.mpr (by omega)
      have h2 : ds[i]? = none := List.getElem?_eq_none_iff.mpr (by omega)
      simp [h1, h2]
  · intro i
    rw [buildCitations_getElem?]
    by_cases hlt : i < ds.length
    · cases hms : ms[i]? with
      | none => rw [List.getElem?_eq_none_iff] at hms; omega
      | some m =>
        cases hid : ids[i]? with
        | none => rw [List.getElem?_eq_none_iff] at hid; omega
        | some d =>
          cases hds : ds[i]? with
          | none => rw [List.getElem?_eq_none_iff] at hds; omega
          | some t => simp [hms, hid, hds]
    · have h1 : ms[i]? = none := List.getElem?_eq_none_iff.mpr (by omega)
      simp [h1]

/-- Witness for C4 at one retrieved document carrying a source field. -/
theorem C4_citation_alignment_witness :
    (isBlank "q" = false)
    ∧ (["docA text"] ≠ ([] : List String))
    ∧ generateAnswer wEmbed wOneDocQuery (some "k") wLlmOk "q" 4 =
        .ok (extractAnswer ⟨[.textBlock " grounded answer "]⟩,
          buildCitations [some (dictSet emptyDict "source" "src1")]
            ["id-1"] ["docA text"])
    ∧ (buildCitations [some (dictSet emptyDict "source" "src1")]
        ["id-1"] ["docA text"]).length = 1 := by
  have h := C4_citation_alignment wEmbed wOneDocQuery (some "k") wLlmOk
    "q" 4 ["docA text"] [some (dictSet emptyDict "source" "src1")] ["id-1"]
    ⟨[.textBlock " grounded answer "]⟩ (by decide) rfl (by decide) rfl rfl
    rfl rfl
  exact ⟨by decide, by decide, h.1, h.2.1⟩

end EdgeLink
